import Mathlib

/-!
Verification of the `Dual` class of `dual_autodiff_x/dual_autodiff_x/dual.pyx`
(forward-mode automatic differentiation with dual numbers).

The Python scalars are modelled as rationals (exact arithmetic on the sample
inputs the spec uses), a dual number as a pair of rationals, and a fallible
method as a value of `Except PyErr Dual`.  The exception classes the source
raises (`ZeroDivisionError`, `TypeError`; `ValueError` appears only in a
docstring) become the constructors of `PyErr`.  In-place operators are
modelled as state transformers returning the receiver's final field values
together with the exception raised, if any (`Dual × Option PyErr`): the
source raises before any field assignment, and that control flow is kept.
Python builtins applied to scalars (`math.log`, the scalar `**` inside
`__ipow__`) are not code of this repository; they enter as function
parameters.
-/

/-- The exception classes raised by the source: `ZeroDivisionError` (all
division-undefined failures), `TypeError` (bad exponent type) and
`ValueError` (the distinct domain-error class named in `pow`'s docstring,
never actually raised by the code). -/
inductive PyErr where
  | zeroDivisionError
  | typeError
  | valueError
deriving DecidableEq, Repr

/-- A dual number `a + b ε`: field-for-field the Python `Dual` object
(`self.real`, `self.dual`). -/
structure Dual where
  real : ℚ
  dual : ℚ
deriving DecidableEq, Repr

/-- The right operand of a binary dual operation: the source branches on
`isinstance(other, Dual)`, so the operand is either another dual number or a
bare scalar. -/
inductive Operand where
  | dualNum (y : Dual)
  | scalar (s : ℚ)
deriving DecidableEq, Repr

/-- `Dual.__add__`: dual+dual adds componentwise; dual+scalar adds the scalar
to the real part only. -/
def Dual.add (x : Dual) (o : Operand) : Dual :=
  match o with
  | .dualNum y => ⟨x.real + y.real, x.dual + y.dual⟩
  | .scalar s => ⟨x.real + s, x.dual⟩

/-- `Dual.__radd__`: scalar + dual delegates to `__add__`. -/
def Dual.radd (s : ℚ) (x : Dual) : Dual :=
  Dual.add x (.scalar s)

/-- `Dual.__mul__`: the product rule for dual*dual, componentwise scaling for
dual*scalar. -/
def Dual.mul (x : Dual) (o : Operand) : Dual :=
  match o with
  | .dualNum y => ⟨x.real * y.real, x.real * y.dual + x.dual * y.real⟩
  | .scalar s => ⟨x.real * s, x.dual * s⟩

/-- `Dual.__rmul__`: scalar * dual delegates to `__mul__`. -/
def Dual.rmul (s : ℚ) (x : Dual) : Dual :=
  Dual.mul x (.scalar s)

/-- `Dual.__truediv__`: the quotient rule for dual/dual, guarded by the
divisor's real part; componentwise division for dual/scalar, guarded by the
scalar. -/
def Dual.div (x : Dual) (o : Operand) : Except PyErr Dual :=
  match o with
  | .dualNum y =>
    if y.real = 0 then .error .zeroDivisionError
    else
      let real := x.real / y.real
      let dual := (x.dual * y.real - x.real * y.dual) / y.real ^ 2
      .ok ⟨real, dual⟩
  | .scalar s =>
    if s = 0 then .error .zeroDivisionError
    else .ok ⟨x.real / s, x.dual / s⟩

/-- `Dual.__rtruediv__`: scalar / dual, guarded by the dual number's real
part. -/
def Dual.rdiv (other : ℚ) (x : Dual) : Except PyErr Dual :=
  if x.real = 0 then .error .zeroDivisionError
  else
    let real := other / x.real
    let dual := -other * x.dual / x.real ^ 2
    .ok ⟨real, dual⟩

/-- `Dual.inverse`: `(1/a) - (b/a^2) ε`, guarded by the real part. -/
def Dual.inverse (x : Dual) : Except PyErr Dual :=
  if x.real = 0 then .error .zeroDivisionError
  else
    let real_inv := 1 / x.real
    let dual_inv := -x.dual / x.real ^ 2
    .ok ⟨real_inv, dual_inv⟩

/-- `Dual.__imul__` as a state transformer: the returned `Dual` is the
receiver's final field values and the `Option PyErr` the exception raised
(never any, for multiplication).  The source computes `new_real` and
`new_dual` into temporaries and then assigns `self.real` and `self.dual` in
that order; the two sequential record updates keep that order. -/
def Dual.imulRun (x : Dual) (o : Operand) : Dual × Option PyErr :=
  match o with
  | .dualNum y =>
    let new_real := x.real * y.real
    let new_dual := x.real * y.dual + x.dual * y.real
    let x1 := { x with real := new_real }
    let x2 := { x1 with dual := new_dual }
    (x2, none)
  | .scalar s =>
    let x1 := { x with real := x.real * s }
    let x2 := { x1 with dual := x1.dual * s }
    (x2, none)

/-- `Dual.__itruediv__` as a state transformer: the guards are checked before
any field assignment, so on an exception the receiver still holds its
original fields; otherwise `real_div`/`dual_div` are computed into
temporaries and then assigned in order. -/
def Dual.idivRun (x : Dual) (o : Operand) : Dual × Option PyErr :=
  match o with
  | .dualNum y =>
    if y.real = 0 then (x, some .zeroDivisionError)
    else
      let real_div := x.real / y.real
      let dual_div := (x.dual * y.real - x.real * y.dual) / y.real ^ 2
      let x1 := { x with real := real_div }
      let x2 := { x1 with dual := dual_div }
      (x2, none)
  | .scalar s =>
    if s = 0 then (x, some .zeroDivisionError)
    else
      let x1 := { x with real := x.real / s }
      let x2 := { x1 with dual := x1.dual / s }
      (x2, none)

/-- `Dual.pow` with an integer exponent (the source's `TypeError` guard on a
non-integer `n` is the typing of `n : ℤ` here).  The first guard is the
source's explicit check `self.real == 0 and n < 0`.  The second guard models
Python itself: after the explicit check, the source evaluates
`self.real ** (n - 1)` inside the dual part, and Python raises
`ZeroDivisionError` when a zero base gets a negative exponent — which slips
past the explicit check exactly when `n = 0`. -/
def Dual.pow (x : Dual) (n : ℤ) : Except PyErr Dual :=
  if x.real = 0 ∧ n < 0 then .error .zeroDivisionError
  else if x.real = 0 ∧ n - 1 < 0 then .error .zeroDivisionError
  else .ok ⟨x.real ^ n, (n : ℚ) * x.real ^ (n - 1) * x.dual⟩

/-- `Dual.__ipow__` as a state transformer.  The source rejects only a `Dual`
exponent with `TypeError`, before any assignment; any scalar exponent
(integer or not) flows into `self.real ** other`.  The scalar power builtin
`**` is not repository code, so it enters as the parameter `powFn` (with
`powFn a s` standing for Python's `a ** s`); the claims settled against this
definition hold for every `powFn`. -/
def Dual.ipowRun (powFn : ℚ → ℚ → ℚ) (x : Dual) (o : Operand) :
    Dual × Option PyErr :=
  match o with
  | .dualNum _ => (x, some .typeError)
  | .scalar s =>
    let real_pow := powFn x.real s
    let dual_pow := s * powFn x.real (s - 1) * x.dual
    let x1 := { x with real := real_pow }
    let x2 := { x1 with dual := dual_pow }
    (x2, none)

/-- `Dual.log`: guarded by `self.real <= 0`, raising `ZeroDivisionError` (the
source's choice of exception class); otherwise `log(a) + (b/a) ε`.  The
natural-logarithm builtin `math.log` is not repository code, so it enters as
the parameter `logFn`. -/
def Dual.log (logFn : ℚ → ℚ) (x : Dual) : Except PyErr Dual :=
  if x.real ≤ 0 then .error .zeroDivisionError
  else .ok ⟨logFn x.real, x.dual / x.real⟩

/-- `Dual.__eq__`: exact equality of both fields against a dual number; a
scalar compares equal exactly when the real part equals it and the dual part
is zero. -/
def Dual.eq (x : Dual) (o : Operand) : Bool :=
  match o with
  | .dualNum y => decide (x.real = y.real) && decide (x.dual = y.dual)
  | .scalar s => decide (x.real = s) && decide (x.dual = 0)

/-- C1: for `f(x) = x*x + 3*x + 5` evaluated with dual-number arithmetic at
`x = Dual(2, 1)` — composing `__mul__` on two duals, `__rmul__` for `3 * x`,
`__add__` on two duals and then on a scalar — the result has real part 15 and
dual part 7. -/
theorem quadratic_eval_at_two :
    Dual.add (Dual.add (Dual.mul ⟨2, 1⟩ (.dualNum ⟨2, 1⟩))
        (.dualNum (Dual.rmul 3 ⟨2, 1⟩))) (.scalar 5) = ⟨15, 7⟩ := by
  simp [Dual.add, Dual.mul, Dual.rmul]
  norm_num

/-- C2: for all dual numbers, `x * y` has real part `a1*a2` and dual part
`a1*b2 + b1*a2`; in particular `Dual(2,1) * Dual(3,2) = Dual(6, 7)`. -/
theorem mul_dual_product_rule :
    (∀ x y : Dual,
      Dual.mul x (.dualNum y) =
        ⟨x.real * y.real, x.real * y.dual + x.dual * y.real⟩) ∧
    Dual.mul ⟨2, 1⟩ (.dualNum ⟨3, 2⟩) = ⟨6, 7⟩ := by
  refine ⟨fun x y => rfl, ?_⟩
  simp [Dual.mul]
  norm_num

/-- C3: `x / y` on two duals fails with `ZeroDivisionError` exactly when the
divisor's real part is zero (the divisor's dual part is irrelevant), and
otherwise returns `(a1/a2, (b1*a2 - a1*b2)/a2^2)`; in particular
`Dual(1,0) / Dual(0,1)` raises `ZeroDivisionError`. -/
theorem div_dual_quotient_rule (x y : Dual) :
    (Dual.div x (.dualNum y) = .error .zeroDivisionError ↔ y.real = 0) ∧
    (y.real ≠ 0 →
      Dual.div x (.dualNum y) =
        .ok ⟨x.real / y.real, (x.dual * y.real - x.real * y.dual) / y.real ^ 2⟩) ∧
    Dual.div ⟨1, 0⟩ (.dualNum ⟨0, 1⟩) = .error .zeroDivisionError := by
  refine ⟨?_, ?_, ?_⟩
  · by_cases h : y.real = 0 <;> simp [Dual.div, h]
  · intro h; simp [Dual.div, h]
  · simp [Dual.div]

theorem div_dual_quotient_rule_witness :
    Dual.div ⟨1, 0⟩ (.dualNum ⟨2, 3⟩) =
      .ok ⟨1 / 2, (0 * 2 - 1 * 3) / 2 ^ 2⟩ :=
  (div_dual_quotient_rule ⟨1, 0⟩ ⟨2, 3⟩).2.1 (by norm_num)

/-- C4: evaluation of `pow` at the input breaking the claim.  The claim says
`pow(n)` fails exactly when `a == 0 ∧ n < 0` and so succeeds for every
`n ≥ 0`; but at `Dual(0, 1).pow(0)` the dual-part expression
`n * self.real ** (n - 1) * self.dual` evaluates `0 ** (-1)`, which raises
`ZeroDivisionError`.  The documented cases hold: `Dual(2,1).pow(3) = Dual(8,12)`
and `Dual(0,1).pow(-1)` raises. -/
theorem pow_raises_at_zero_base_zero_exponent :
    Dual.pow ⟨0, 1⟩ 0 = .error .zeroDivisionError ∧
    Dual.pow ⟨2, 1⟩ 3 = .ok ⟨8, 12⟩ ∧
    Dual.pow ⟨0, 1⟩ (-1) = .error .zeroDivisionError := by
  refine ⟨by simp [Dual.pow], ?_, by simp [Dual.pow]⟩
  simp [Dual.pow]
  norm_num

/-- C5: evaluation of `__ipow__` showing the claim's non-integer rejection is
absent from the code.  A non-integer scalar exponent (here `1/2`) is not
rejected: no exception is raised and the receiver is mutated, for every
behaviour `powFn` of the scalar power builtin.  Only a dual-number exponent
is rejected with `TypeError`, and that rejection does leave the receiver's
fields unchanged. -/
theorem ipow_accepts_noninteger_exponent :
    (∀ powFn : ℚ → ℚ → ℚ,
      Dual.ipowRun powFn ⟨4, 1⟩ (.scalar (1 / 2)) =
        (⟨powFn 4 (1 / 2), (1 / 2) * powFn 4 (1 / 2 - 1) * 1⟩, none)) ∧
    (∀ (powFn : ℚ → ℚ → ℚ) (x y : Dual),
      Dual.ipowRun powFn x (.dualNum y) = (x, some .typeError)) :=
  ⟨fun _ => rfl, fun _ _ _ => rfl⟩

/-- C6: the in-place operators refine the pure ones: `x *= o` ends with
exactly the fields of `x * o` computed from the pre-mutation fields (raising
nothing), and whenever `x / o` succeeds with result `r`, `x /= o` ends with
exactly the fields of `r` (raising nothing). -/
theorem inplace_matches_pure (x : Dual) (o : Operand) :
    Dual.imulRun x o = (Dual.mul x o, none) ∧
    ∀ r : Dual, Dual.div x o = .ok r → Dual.idivRun x o = (r, none) := by
  constructor
  · cases o <;> rfl
  · intro r h
    cases o with
    | dualNum y =>
      by_cases hy : y.real = 0
      · simp [Dual.div, hy] at h
      · simp only [Dual.div, hy, if_false, Except.ok.injEq] at h
        simp [Dual.idivRun, hy, h]
    | scalar s =>
      by_cases hs : s = 0
      · simp [Dual.div, hs] at h
      · simp only [Dual.div, hs, if_false, Except.ok.injEq] at h
        simp [Dual.idivRun, hs, h]

theorem inplace_matches_pure_witness :
    Dual.idivRun ⟨2, 1⟩ (.dualNum ⟨3, 2⟩) =
      (⟨2 / 3, (1 * 3 - 2 * 2) / 3 ^ 2⟩, none) :=
  (inplace_matches_pure ⟨2, 1⟩ (.dualNum ⟨3, 2⟩)).2
    ⟨2 / 3, (1 * 3 - 2 * 2) / 3 ^ 2⟩ (by simp [Dual.div])

/-- C7: `x.inverse()` agrees with the reflected division `1 / x`: for a
non-zero real part both return `(1/a, -b/a^2)`, and for a zero real part both
raise `ZeroDivisionError`. -/
theorem inverse_matches_reflected_div (x : Dual) :
    (x.real = 0 →
      Dual.inverse x = .error .zeroDivisionError ∧
      Dual.rdiv 1 x = .error .zeroDivisionError) ∧
    (x.real ≠ 0 →
      Dual.inverse x = .ok ⟨1 / x.real, -x.dual / x.real ^ 2⟩ ∧
      Dual.inverse x = Dual.rdiv 1 x) := by
  constructor
  · intro h
    constructor <;> simp [Dual.inverse, Dual.rdiv, h]
  · intro h
    constructor
    · simp [Dual.inverse, h]
    · simp only [Dual.inverse, Dual.rdiv, h, if_false, Except.ok.injEq]
      rw [neg_one_mul]

theorem inverse_matches_reflected_div_witness :
    Dual.inverse ⟨0, 1⟩ = .error .zeroDivisionError ∧
    Dual.inverse ⟨2, 3⟩ = Dual.rdiv 1 ⟨2, 3⟩ :=
  ⟨((inverse_matches_reflected_div ⟨0, 1⟩).1 rfl).1,
   ((inverse_matches_reflected_div ⟨2, 3⟩).2 (by norm_num)).2⟩

/-- C8 counterexample: at `Dual(0, 1)`, `log` raises `ZeroDivisionError` —
the very exception class of the division-undefined category — and not an
error of a distinct domain-error category (`ValueError`), contradicting the
claim's assertion that `log`'s failure is of a category distinct from
division-undefined. -/
theorem log_zero_raises_zero_division :
    Dual.log (fun _ => 0) ⟨0, 1⟩ = .error .zeroDivisionError ∧
    PyErr.zeroDivisionError ≠ PyErr.valueError :=
  ⟨by simp [Dual.log], by simp⟩

/-- C8 amended: `log` fails — with `ZeroDivisionError`, the same class the
division operations use — exactly when the real part is `≤ 0`, and otherwise
returns `(log a, b/a)`; in particular `Dual(0, 1).log()` raises. -/
theorem log_guard_iff (logFn : ℚ → ℚ) (x : Dual) :
    (Dual.log logFn x = .error .zeroDivisionError ↔ x.real ≤ 0) ∧
    (¬x.real ≤ 0 →
      Dual.log logFn x = .ok ⟨logFn x.real, x.dual / x.real⟩) ∧
    Dual.log logFn ⟨0, 1⟩ = .error .zeroDivisionError := by
  refine ⟨?_, ?_, by simp [Dual.log]⟩
  · by_cases h : x.real ≤ 0 <;> simp [Dual.log, h]
  · intro h; simp [Dual.log, h]

theorem log_guard_iff_witness :
    Dual.log (fun _ => 0) ⟨1, 2⟩ = .ok ⟨0, 2 / 1⟩ :=
  (log_guard_iff (fun _ => 0) ⟨1, 2⟩).2.1 (by norm_num)

/-- C9: `__eq__` is decided exactly by the two fields: against a dual number,
equal iff both fields are equal; against a scalar, equal iff the real part
equals the scalar and the dual part is zero — exact comparison, no
tolerance. -/
theorem eq_iff_both_fields (x y : Dual) (s : ℚ) :
    (Dual.eq x (.dualNum y) = true ↔ x.real = y.real ∧ x.dual = y.dual) ∧
    (Dual.eq x (.scalar s) = true ↔ x.real = s ∧ x.dual = 0) := by
  constructor <;> simp [Dual.eq]

/-- C10: in-place division is atomic on error: whenever `x /= o` raises (zero
real part of a dual divisor, or a zero scalar divisor), the receiver's fields
are exactly as they were before the operation. -/
theorem idiv_error_leaves_receiver (x : Dual) (o : Operand) (e : PyErr) :
    (Dual.idivRun x o).2 = some e → (Dual.idivRun x o).1 = x := by
  intro h
  cases o with
  | dualNum y =>
    by_cases hy : y.real = 0
    · simp [Dual.idivRun, hy]
    · simp [Dual.idivRun, hy] at h
  | scalar s =>
    by_cases hs : s = 0
    · simp [Dual.idivRun, hs]
    · simp [Dual.idivRun, hs] at h

theorem idiv_error_leaves_receiver_witness :
    (Dual.idivRun ⟨1, 2⟩ (.dualNum ⟨0, 5⟩)).1 = ⟨1, 2⟩ :=
  idiv_error_leaves_receiver ⟨1, 2⟩ (.dualNum ⟨0, 5⟩) .zeroDivisionError
    (by simp [Dual.idivRun])
